import Mathlib

/-!
A shallow embedding of the `bus` package (an in-process publish/subscribe
event bus, `bus.go`) together with theorems checking its natural-language
specification.

Modelling conventions:
* Go `Handler` values (`func(Payload) error`) are identified by `HandlerId`
  (a `Nat`); their behaviour is supplied separately as a semantics function
  `sem : HandlerId → Payload → Option String` (`none` models a `nil` error,
  `some s` a non-nil error).  This lets us talk about handler identity
  (registration multiplicity) while keeping delivery executable.
* Go channels of `Payload` (`chan Payload`, the delivery queues) are
  identified by `QueueId` (a `Nat`); writing into a queue is recorded as an
  observable event rather than mutating caller-owned state.
* A Go map such as `map[string][]Handler` is modelled as
  `Option (String → Option v)`: `none` is the nil map, `some f` a non-nil
  map whose entries are the keys where `f` is `some`.  Reading a missing key
  or reading from a nil map yields the zero value (the empty slice), exactly
  as in Go; `mset` only updates non-nil maps (the repository never writes to
  a nil map: `New` initialises `subchans` and `handlers`).
* `time.Now()` is modelled by passing the current instant as an explicit
  `Nat` argument to `AddHandlers`.
* `log.Printf` tracing is elided except for the handler-failure reports in
  `deliver`, which are the observable "report locally" behaviour the spec
  talks about: `deliver` returns, besides its event trace, the list of
  handlers whose invocation failed (the `"Handler failed: %v"` log lines).
* Goroutine scheduling is not modelled; the dispatch loop's per-rider step
  `runStep` records whether the fan-out was detached (`go b.deliver(r)`) or
  executed inline, paired with the fan-out's observable behaviour.
-/

/-- Go: `type Payload interface { Type() string; Data() map[string]interface{} }`.
The bus only ever reads `Type()`; the data bag is carried opaquely (values
modelled as `Nat`, which the bus code never inspects). -/
structure Payload where
  typ : String
  data : List (String × Nat)
deriving DecidableEq, Repr

/-- Identity of a registered Go `Handler` value. -/
abbrev HandlerId := Nat

/-- Identity of a registered delivery queue (`chan Payload`). -/
abbrev QueueId := Nat

/-- Go: `type flag int`. -/
abbrev flag := Nat

/-- Go: `synchronous flag = 1 << iota` (first constant, iota = 0). -/
def synchronous : flag := 1 <<< 0

/-- Go: `asynchronous flag = 1 << iota` (second constant, iota = 1). -/
def asynchronous : flag := 1 <<< 1

/-- Go: `type rider struct { payload Payload; mode flag }`. -/
structure rider where
  payload : Payload
  mode : flag
deriving DecidableEq, Repr

/-- A Go map with string keys: `none` is the nil map. -/
abbrev Smap (v : Type) := Option (String → Option v)

/-- Read `m[k]` with Go zero-value semantics: a missing key, or a nil map,
reads as the empty slice. -/
def mget {v : Type} (m : Smap (List v)) (k : String) : List v :=
  match m with
  | none => []
  | some f => (f k).getD []

/-- The `_, ok := m[k]` presence check; `false` on a nil map. -/
def mhas {v : Type} (m : Smap v) (k : String) : Bool :=
  match m with
  | none => false
  | some f => (f k).isSome

/-- Write `m[k] = x` on a non-nil map (the repository only ever writes to the
maps initialised by `New`; a nil map is left untouched here, where Go would
panic — no theorem below relies on the nil-map write case). -/
def mset {v : Type} (m : Smap v) (k : String) (x : v) : Smap v :=
  m.map (fun f => fun k' => if k' = k then some x else f k')

/-- Go: `type Bus struct { pubchan chan rider; subchans map[string][]chan Payload;
handlers map[string][]Handler; flags map[Payload]flag }`.  The inbound channel
`pubchan` is modelled as the FIFO list of riders handed to it, in post order.
The `flags` field is declared in the struct but never initialised or used by
any method. -/
structure Bus where
  pubchan : List rider
  subchans : Smap (List QueueId)
  handlers : Smap (List HandlerId)
  flags : Option (Payload → Option flag)

/-- Go: `type busError struct { When time.Time; What string }`. -/
structure busError where
  When : Nat
  What : String
deriving DecidableEq, Repr

/-- Go: `func (e *busError) Error() string { return fmt.Sprintf("at %v, %s", e.When, e.What) }`. -/
def busError.Error (e : busError) : String :=
  "at " ++ toString e.When ++ ", " ++ e.What

/-- Go: `func (b Bus) Post(p Payload) error` — wraps `p` in an asynchronous
rider, hands it to the inbound channel, returns nil. -/
def Bus.Post (b : Bus) (p : Payload) : Bus × Option busError :=
  ({ b with pubchan := b.pubchan ++ [{ payload := p, mode := asynchronous }] }, none)

/-- Go: `func (b Bus) PostAndWait(p Payload) error` — wraps `p` in a
synchronous rider, hands it to the inbound channel, returns nil. -/
def Bus.PostAndWait (b : Bus) (p : Payload) : Bus × Option busError :=
  ({ b with pubchan := b.pubchan ++ [{ payload := p, mode := synchronous }] }, none)

/-- Go: `func (b Bus) AddHandlers(typ string, fns ...Handler) error` — appends
the supplied handlers via `b.handlers[typ] = append(b.handlers[typ], fns...)`
when at least one is given, otherwise returns `&busError{time.Now(), message}`
without touching the table.  `now` stands for `time.Now()`. -/
def Bus.AddHandlers (b : Bus) (now : Nat) (typ : String) (fns : List HandlerId) :
    Bus × Option busError :=
  if 0 < fns.length then
    ({ b with handlers := mset b.handlers typ (mget b.handlers typ ++ fns) }, none)
  else
    (b, some { When := now,
               What := "Argument error: at least one handler must be registered." })

/-- Go: `func (b Bus) AddChannel(typ string, c chan Payload)` — creates the
entry `[c]` when `typ` is absent, otherwise appends `c` to the existing
slice. -/
def Bus.AddChannel (b : Bus) (typ : String) (c : QueueId) : Bus :=
  if mhas b.subchans typ = false then
    { b with subchans := mset b.subchans typ [c] }
  else
    { b with subchans := mset b.subchans typ (mget b.subchans typ ++ [c]) }

/-- The single unconditional append that `AddChannel`'s two branches are
claimed to be equivalent to (this definition follows the claim's words, for
comparison with `Bus.AddChannel`, which follows the source). -/
def Bus.addChannelUnconditional (b : Bus) (typ : String) (c : QueueId) : Bus :=
  { b with subchans := mset b.subchans typ (mget b.subchans typ ++ [c]) }

/-- Go: `func New() Bus` — `new(Bus)` zero-values every field (so `flags`
stays nil), then `pubchan`, `subchans` and `handlers` are initialised with
fresh empty values, and the dispatch loop is started (a scheduling effect not
represented in the state). -/
def New : Bus :=
  { pubchan := []
    subchans := some (fun _ => none)
    handlers := some (fun _ => none)
    flags := none }

/-- An observable delivery action performed by the fan-out: invoking a
registered handler with the payload, or writing the payload into a registered
delivery queue (`c <- r.payload`). -/
inductive Event where
  | invoke (h : HandlerId) (p : Payload)
  | enqueue (c : QueueId) (p : Payload)
deriving DecidableEq, Repr

/-- The handler half of `deliver`: invoke each registered handler in order;
when one returns a non-nil error, record it in the failure report (the
`log.Printf("Handler failed: %v.\n", h)` line) and continue. -/
def deliverHandlers (sem : HandlerId → Payload → Option String) (p : Payload) :
    List HandlerId → List Event × List HandlerId
  | [] => ([], [])
  | h :: rest =>
    let err := sem h p
    let tail := deliverHandlers sem p rest
    (Event.invoke h p :: tail.1,
     (if err.isSome then [h] else []) ++ tail.2)

/-- Go: `func (b Bus) deliver(r rider)` — first invokes every handler
registered for the payload's type, in order (tolerating handler errors), then
writes the payload into every registered queue, in order.  Returns the event
trace and the handler-failure report. -/
def Bus.deliver (b : Bus) (sem : HandlerId → Payload → Option String) (r : rider) :
    List Event × List HandlerId :=
  let typ := r.payload.typ
  let hs := deliverHandlers sem r.payload (mget b.handlers typ)
  (hs.1 ++ (mget b.subchans typ).map (fun c => Event.enqueue c r.payload), hs.2)

/-- One iteration of the dispatch loop `run` for a dequeued rider:
`if r.mode == asynchronous { go b.deliver(r) } else { b.deliver(r) }`.
The boolean records whether the fan-out was detached onto its own goroutine. -/
def Bus.runStep (b : Bus) (sem : HandlerId → Payload → Option String) (r : rider) :
    Bool × (List Event × List HandlerId) :=
  if r.mode == asynchronous then
    (true, b.deliver sem r)
  else
    (false, b.deliver sem r)

/-- Go: `func (b Bus) run()` — drains the inbound channel in FIFO order,
performing `runStep` on each rider. -/
def Bus.run (b : Bus) (sem : HandlerId → Payload → Option String) :
    List (Bool × (List Event × List HandlerId)) :=
  b.pubchan.map (fun r => b.runStep sem r)

/-- Go: `func (b Bus) modestring(f flag) string`. -/
def Bus.modestring (_ : Bus) (f : flag) : String :=
  if (f &&& asynchronous) == asynchronous then "asynchronously" else "synchronously"

/-- The handler invocations appearing in an event trace, in order. -/
def invocations (t : List Event) : List HandlerId :=
  t.filterMap (fun e => match e with
    | Event.invoke h _ => some h
    | Event.enqueue _ _ => none)

/-- The queue writes appearing in an event trace, in order. -/
def enqueues (t : List Event) : List QueueId :=
  t.filterMap (fun e => match e with
    | Event.invoke _ _ => none
    | Event.enqueue c _ => some c)

/-! ### Concrete inputs used to instantiate theorems on closed terms -/

/-- A handler semantics where every handler succeeds. -/
def semOk : HandlerId → Payload → Option String := fun _ _ => none

/-- A handler semantics where handler `1` returns a non-nil error and every
other handler succeeds. -/
def semBoom : HandlerId → Payload → Option String :=
  fun h _ => if h = 1 then some "boom" else none

/-- A concrete payload of type `"t"` with an empty data bag. -/
def pT : Payload := { typ := "t", data := [] }

/-- A concrete bus: handlers `1` and `2` plus delivery queue `5`, all
registered for type `"t"`. -/
def busT : Bus := ((New.AddHandlers 0 "t" [1, 2]).1).AddChannel "t" 5

/-! ### Helper lemmas (shared) -/

theorem mset_isSome {v : Type} (m : Smap v) (k : String) (x : v) :
    (mset m k x).isSome = m.isSome := by
  cases m <;> rfl

theorem deliverHandlers_fst (sem : HandlerId → Payload → Option String) (p : Payload) :
    ∀ hs : List HandlerId,
      (deliverHandlers sem p hs).1 = hs.map (fun h => Event.invoke h p)
  | [] => rfl
  | h :: rest => by
      simp [deliverHandlers, deliverHandlers_fst sem p rest]

theorem mem_deliverHandlers_snd (sem : HandlerId → Payload → Option String) (p : Payload)
    {h : HandlerId} (he : (sem h p).isSome = true) :
    ∀ {hs : List HandlerId}, h ∈ hs → h ∈ (deliverHandlers sem p hs).2 := by
  intro hs
  induction hs with
  | nil => intro hmem; cases hmem
  | cons a rest ih =>
      intro hmem
      simp only [deliverHandlers, List.mem_append]
      rcases List.mem_cons.mp hmem with heq | htail
      · subst heq
        left
        simp [he]
      · right
        exact ih htail

theorem deliver_fst (b : Bus) (sem : HandlerId → Payload → Option String) (r : rider) :
    (b.deliver sem r).1
      = (mget b.handlers r.payload.typ).map (fun h => Event.invoke h r.payload)
        ++ (mget b.subchans r.payload.typ).map (fun c => Event.enqueue c r.payload) := by
  simp [Bus.deliver, deliverHandlers_fst]

theorem invocations_of_trace (hs : List HandlerId) (qs : List QueueId) (p : Payload) :
    invocations (hs.map (fun h => Event.invoke h p)
      ++ qs.map (fun c => Event.enqueue c p)) = hs := by
  induction hs with
  | nil =>
      induction qs with
      | nil => rfl
      | cons q qt ihq => simp [invocations]
  | cons h ht ihh => simpa [invocations] using ihh

theorem enqueues_of_trace (hs : List HandlerId) (qs : List QueueId) (p : Payload) :
    enqueues (hs.map (fun h => Event.invoke h p)
      ++ qs.map (fun c => Event.enqueue c p)) = qs := by
  induction hs with
  | nil =>
      induction qs with
      | nil => rfl
      | cons q qt ihq => simpa [enqueues] using ihq
  | cons h ht ihh => simpa [enqueues] using ihh

theorem mget_mset_self {v : Type} (f : String → Option (List v)) (k : String) (x : List v) :
    mget (mset (some f) k x) k = x := by
  simp [mget, mset]

theorem mget_mset_ne {v : Type} (m : Smap (List v)) (k k' : String) (x : List v)
    (hne : k' ≠ k) : mget (mset m k x) k' = mget m k' := by
  cases m with
  | none => rfl
  | some f => simp [mget, mset, hne]

theorem mhas_mset_ne {v : Type} (m : Smap v) (k k' : String) (x : v)
    (hne : k' ≠ k) : mhas (mset m k x) k' = mhas m k' := by
  cases m with
  | none => rfl
  | some f => simp [mhas, mset, hne]

/-! ### Claims -/

/-- C2: `AddHandlers` with zero handlers returns a non-nil argument error
carrying the timestamp (`time.Now()`, here `now`) and the message, and the
returned bus is the original one, so the handler table — the entry for `typ`
and every other entry — is unchanged. -/
theorem addHandlers_zero_argument_error (b : Bus) (now : Nat) (typ : String) :
    b.AddHandlers now typ []
      = (b, some { When := now,
                   What := "Argument error: at least one handler must be registered." }) ∧
    ((b.AddHandlers now typ []).2).isSome = true := by
  constructor
  · rfl
  · rfl

/-- C6: `Post` and `PostAndWait` always return a nil error, for every bus
state and payload. -/
theorem post_always_returns_nil (b : Bus) (p : Payload) :
    (b.Post p).2 = none ∧ (b.PostAndWait p).2 = none := by
  exact ⟨rfl, rfl⟩

/-- C7: `Post` enqueues a rider tagged `asynchronous`, `PostAndWait` one
tagged `synchronous`; the two flag values are distinct; and the dispatch
loop's test `mode == asynchronous` classifies each rider correctly (detaching
exactly the asynchronous ones), as does `modestring`. -/
theorem post_mode_flags_classified (b : Bus) (p : Payload)
    (sem : HandlerId → Payload → Option String) :
    (b.Post p).1.pubchan = b.pubchan ++ [{ payload := p, mode := asynchronous }] ∧
    (b.PostAndWait p).1.pubchan = b.pubchan ++ [{ payload := p, mode := synchronous }] ∧
    synchronous ≠ asynchronous ∧
    (asynchronous == asynchronous) = true ∧
    (synchronous == asynchronous) = false ∧
    (b.runStep sem { payload := p, mode := asynchronous }).1 = true ∧
    (b.runStep sem { payload := p, mode := synchronous }).1 = false ∧
    b.modestring asynchronous = "asynchronously" ∧
    b.modestring synchronous = "synchronously" := by
  refine ⟨rfl, rfl, by decide, by decide, by decide, ?_, ?_, ?_, ?_⟩
  · simp [Bus.runStep]
  · simp [Bus.runStep, synchronous, asynchronous]
  · rfl
  · rfl

/-- C9: `AddChannel`'s two branches are equivalent to the single
unconditional append `b.subchans[typ] = append(b.subchans[typ], c)`; on a
non-nil queue map the result holds the old sequence for `typ` (possibly
empty) with `c` appended, and every other key is untouched. -/
theorem addChannel_eq_unconditional_append (b : Bus) (typ : String) (c : QueueId) :
    b.AddChannel typ c = b.addChannelUnconditional typ c ∧
    (b.subchans.isSome = true →
      mget (b.AddChannel typ c).subchans typ = mget b.subchans typ ++ [c]) ∧
    (∀ k, k ≠ typ → mget (b.AddChannel typ c).subchans k = mget b.subchans k) := by
  refine ⟨?_, ?_, ?_⟩
  · cases hm : b.subchans with
    | none =>
        simp [Bus.AddChannel, Bus.addChannelUnconditional, mhas, mset, hm]
    | some f =>
        cases hf : f typ with
        | none =>
            simp [Bus.AddChannel, Bus.addChannelUnconditional, mhas, mget, mset, hm, hf]
        | some v =>
            simp [Bus.AddChannel, Bus.addChannelUnconditional, mhas, mget, mset, hm, hf]
  · intro hsome
    obtain ⟨f, hf⟩ := Option.isSome_iff_exists.mp hsome
    cases hp : (f typ) with
    | none =>
        simp [Bus.AddChannel, mhas, hf, hp, mget, mset]
    | some v =>
        simp [Bus.AddChannel, mhas, hf, hp, mget, mset]
  · intro k hk
    unfold Bus.AddChannel
    split
    · simpa using mget_mset_ne b.subchans typ k [c] hk
    · simpa using mget_mset_ne b.subchans typ k (mget b.subchans typ ++ [c]) hk

/-- C10: registration has a minimal footprint: `AddHandlers` for `typ`
touches neither the inbound channel, the queue map, the `flags` field, nor
the handler entry of any other key; `AddChannel` for `typ` touches neither
the inbound channel, the handler map, the `flags` field, nor the queue entry
of any other key. -/
theorem registration_minimal_footprint :
    (∀ (b : Bus) (now : Nat) (typ : String) (fns : List HandlerId),
      (b.AddHandlers now typ fns).1.pubchan = b.pubchan ∧
      (b.AddHandlers now typ fns).1.subchans = b.subchans ∧
      (b.AddHandlers now typ fns).1.flags = b.flags ∧
      ∀ k, k ≠ typ →
        mget (b.AddHandlers now typ fns).1.handlers k = mget b.handlers k ∧
        mhas (b.AddHandlers now typ fns).1.handlers k = mhas b.handlers k) ∧
    (∀ (b : Bus) (typ : String) (c : QueueId),
      (b.AddChannel typ c).pubchan = b.pubchan ∧
      (b.AddChannel typ c).handlers = b.handlers ∧
      (b.AddChannel typ c).flags = b.flags ∧
      ∀ k, k ≠ typ →
        mget (b.AddChannel typ c).subchans k = mget b.subchans k ∧
        mhas (b.AddChannel typ c).subchans k = mhas b.subchans k) := by
  constructor
  · intro b now typ fns
    unfold Bus.AddHandlers
    split
    · exact ⟨rfl, rfl, rfl, fun k hk =>
        ⟨mget_mset_ne b.handlers typ k _ hk, mhas_mset_ne b.handlers typ k _ hk⟩⟩
    · exact ⟨rfl, rfl, rfl, fun k _ => ⟨rfl, rfl⟩⟩
  · intro b typ c
    unfold Bus.AddChannel
    split
    · exact ⟨rfl, rfl, rfl, fun k hk =>
        ⟨mget_mset_ne b.subchans typ k _ hk, mhas_mset_ne b.subchans typ k _ hk⟩⟩
    · exact ⟨rfl, rfl, rfl, fun k hk =>
        ⟨mget_mset_ne b.subchans typ k _ hk, mhas_mset_ne b.subchans typ k _ hk⟩⟩

/-- Witness for C10 at a concrete bus: register a handler for `"a"` and a
queue for `"a"`, and observe key `"b"` untouched. -/
theorem registration_minimal_footprint_witness :
    ("b" : String) ≠ "a" ∧
    mget ((New.AddHandlers 0 "a" [7]).1).handlers "b" = mget New.handlers "b" ∧
    mget (New.AddChannel "a" 5).subchans "b" = mget New.subchans "b" := by
  refine ⟨by decide, ?_, ?_⟩
  · exact ((registration_minimal_footprint.1 New 0 "a" [7]).2.2.2 "b" (by decide)).1
  · exact ((registration_minimal_footprint.2 New "a" 5).2.2.2 "b" (by decide)).1

theorem addHandlers_mget_append (b : Bus) (now : Nat) (typ : String) (fns : List HandlerId)
    (hsome : b.handlers.isSome = true) (hfns : 0 < fns.length) :
    mget ((b.AddHandlers now typ fns).1).handlers typ = mget b.handlers typ ++ fns ∧
    ((b.AddHandlers now typ fns).1).handlers.isSome = true := by
  obtain ⟨f, hf⟩ := Option.isSome_iff_exists.mp hsome
  constructor
  · simp only [Bus.AddHandlers, if_pos hfns]
    rw [hf, mget_mset_self]
  · simp only [Bus.AddHandlers, if_pos hfns]
    rw [hf]
    rfl

/-- C1: if `N ≥ 1` handlers are registered for a payload's type, one
iteration of the dispatch loop on a rider carrying that payload invokes
exactly those handlers, each once, in registration order — whether the rider
is synchronous (inline fan-out) or asynchronous (detached fan-out). -/
theorem fanout_invokes_each_registered_handler_once
    (b : Bus) (sem : HandlerId → Payload → Option String) (p : Payload)
    (hs : List HandlerId) (hreg : mget b.handlers p.typ = hs) (_hN : 1 ≤ hs.length) :
    invocations ((b.runStep sem { payload := p, mode := synchronous }).2.1) = hs ∧
    invocations ((b.runStep sem { payload := p, mode := asynchronous }).2.1) = hs := by
  have hsync : (b.runStep sem { payload := p, mode := synchronous }).2.1
      = (b.deliver sem { payload := p, mode := synchronous }).1 := by
    simp [Bus.runStep, synchronous, asynchronous]
  have hasync : (b.runStep sem { payload := p, mode := asynchronous }).2.1
      = (b.deliver sem { payload := p, mode := asynchronous }).1 := by
    simp [Bus.runStep]
  constructor
  · rw [hsync, deliver_fst]
    simp only [hreg]
    exact invocations_of_trace hs _ p
  · rw [hasync, deliver_fst]
    simp only [hreg]
    exact invocations_of_trace hs _ p

/-- Witness for C1: two handlers registered for `"t"`; both delivery modes
invoke `[1, 2]`. -/
theorem fanout_invokes_each_registered_handler_once_witness :
    mget busT.handlers pT.typ = [1, 2] ∧
    1 ≤ ([1, 2] : List HandlerId).length ∧
    (invocations ((busT.runStep semOk { payload := pT, mode := synchronous }).2.1) = [1, 2] ∧
     invocations ((busT.runStep semOk { payload := pT, mode := asynchronous }).2.1) = [1, 2]) :=
  ⟨by decide, by decide,
   fanout_invokes_each_registered_handler_once busT semOk pT [1, 2] (by decide) (by decide)⟩

/-- C3: a handler returning a non-nil error during fan-out is reported only
locally: the event trace is still the full fan-out (all handlers invoked,
all queues written), the failing handler appears in the local failure report,
and the posting operations still return nil. -/
theorem handler_error_reported_locally_only
    (b : Bus) (sem : HandlerId → Payload → Option String) (p : Payload)
    (h : HandlerId) (e : String) (m : flag)
    (hmem : h ∈ mget b.handlers p.typ) (herr : sem h p = some e) :
    (b.deliver sem { payload := p, mode := m }).1
      = (mget b.handlers p.typ).map (fun h' => Event.invoke h' p)
        ++ (mget b.subchans p.typ).map (fun c => Event.enqueue c p) ∧
    h ∈ (b.deliver sem { payload := p, mode := m }).2 ∧
    (b.Post p).2 = none ∧ (b.PostAndWait p).2 = none := by
  refine ⟨deliver_fst b sem _, ?_, rfl, rfl⟩
  have hsome : (sem h p).isSome = true := by simp [herr]
  simpa [Bus.deliver] using mem_deliverHandlers_snd sem p hsome hmem

/-- Witness for C3: handler `1` fails on `busT`; the trace is still the full
fan-out, `1` is reported, and both posts return nil. -/
theorem handler_error_reported_locally_only_witness :
    1 ∈ mget busT.handlers pT.typ ∧
    semBoom 1 pT = some "boom" ∧
    ((busT.deliver semBoom { payload := pT, mode := synchronous }).1
        = (mget busT.handlers pT.typ).map (fun h' => Event.invoke h' pT)
          ++ (mget busT.subchans pT.typ).map (fun c => Event.enqueue c pT) ∧
     1 ∈ (busT.deliver semBoom { payload := pT, mode := synchronous }).2 ∧
     (busT.Post pT).2 = none ∧ (busT.PostAndWait pT).2 = none) :=
  ⟨by decide, by decide,
   handler_error_reported_locally_only busT semBoom pT 1 "boom" synchronous
     (by decide) (by decide)⟩

/-- C4: fan-out delivers in two fully ordered steps — the trace is all
handler invocations (in registration order) followed by all queue writes (in
registration order) — and when no handlers and no queues are registered for
the type, the fan-out is a no-op producing no events, no failure reports, and
no error. -/
theorem fanout_two_ordered_steps
    (b : Bus) (sem : HandlerId → Payload → Option String) (r : rider) :
    (b.deliver sem r).1
      = (mget b.handlers r.payload.typ).map (fun h => Event.invoke h r.payload)
        ++ (mget b.subchans r.payload.typ).map (fun c => Event.enqueue c r.payload) ∧
    enqueues ((b.deliver sem r).1) = mget b.subchans r.payload.typ ∧
    (mget b.handlers r.payload.typ = [] → mget b.subchans r.payload.typ = [] →
      b.deliver sem r = ([], [])) := by
  refine ⟨deliver_fst b sem r, ?_, ?_⟩
  · rw [deliver_fst]
    exact enqueues_of_trace _ _ _
  · intro hh hq
    simp [Bus.deliver, hh, hq, deliverHandlers]

/-- Witness for C4: on the freshly constructed bus nothing is registered for
`"t"`, and fan-out of a `"t"` payload is a no-op. -/
theorem fanout_two_ordered_steps_witness :
    mget New.handlers ({ payload := pT, mode := synchronous } : rider).payload.typ = [] ∧
    mget New.subchans ({ payload := pT, mode := synchronous } : rider).payload.typ = [] ∧
    New.deliver semOk { payload := pT, mode := synchronous } = ([], []) :=
  ⟨rfl, rfl, (fanout_two_ordered_steps New semOk _).2.2 rfl rfl⟩

/-- C5: handler registration is cumulative and deduplication-free: on a bus
with a non-nil handler map, `AddHandlers` appends to the end of the existing
sequence for the type; a second registration appends again (1 then 3 yields
1 + 3); a handler registered `k` times appears `k` times in the sequence and
is invoked `k` times by each fan-out of a payload of that type. -/
theorem addHandlers_cumulative_no_dedup
    (b : Bus) (now : Nat) (typ : String) (fns : List HandlerId)
    (hsome : b.handlers.isSome = true) (hfns : 0 < fns.length) :
    mget ((b.AddHandlers now typ fns).1).handlers typ = mget b.handlers typ ++ fns ∧
    (∀ (now' : Nat) (fns' : List HandlerId), 0 < fns'.length →
      mget ((((b.AddHandlers now typ fns).1).AddHandlers now' typ fns').1).handlers typ
        = mget b.handlers typ ++ fns ++ fns') ∧
    (∀ h : HandlerId,
      (mget ((b.AddHandlers now typ fns).1).handlers typ).count h
        = (mget b.handlers typ).count h + fns.count h) ∧
    (∀ (sem : HandlerId → Payload → Option String) (p : Payload) (m : flag),
      p.typ = typ → ∀ h : HandlerId,
      (invocations (((b.AddHandlers now typ fns).1).deliver sem
          { payload := p, mode := m }).1).count h
        = (mget b.handlers typ).count h + fns.count h) := by
  obtain ⟨key, ksome⟩ := addHandlers_mget_append b now typ fns hsome hfns
  refine ⟨key, ?_, ?_, ?_⟩
  · intro now' fns' hfns'
    obtain ⟨key2, _⟩ :=
      addHandlers_mget_append ((b.AddHandlers now typ fns).1) now' typ fns' ksome hfns'
    rw [key2, key]
  · intro h
    rw [key, List.count_append]
  · intro sem p m hp h
    have htr : invocations (((b.AddHandlers now typ fns).1).deliver sem
        { payload := p, mode := m }).1
        = mget ((b.AddHandlers now typ fns).1).handlers typ := by
      rw [deliver_fst]
      simp only [hp]
      exact invocations_of_trace _ _ _
    rw [htr, key, List.count_append]

/-- Witness for C5: register `[7]` for `"u"` on a fresh bus, then `[8, 9, 7]`;
the sequence for `"u"` is the concatenation. -/
theorem addHandlers_cumulative_no_dedup_witness :
    New.handlers.isSome = true ∧
    0 < ([7] : List HandlerId).length ∧
    0 < ([8, 9, 7] : List HandlerId).length ∧
    mget (((New.AddHandlers 0 "u" [7]).1.AddHandlers 1 "u" [8, 9, 7]).1).handlers "u"
      = mget New.handlers "u" ++ [7] ++ [8, 9, 7] :=
  ⟨rfl, by decide, by decide,
   (addHandlers_cumulative_no_dedup New 0 "u" [7] rfl (by decide)).2.1 1 [8, 9, 7] (by decide)⟩

/-- C8: `New` returns a bus whose queue map and handler map are non-nil and
empty, and every state-changing operation preserves the nil/non-nil status of
every map field (`subchans`, `handlers`, `flags`) unchanged.  The fan-out
(`deliver`/`runStep`/`run`) only reads the bus and returns no bus value, so
it cannot change any field. -/
theorem bus_maps_never_nil :
    New.subchans.isSome = true ∧ New.handlers.isSome = true ∧
    (∀ k, mhas New.subchans k = false ∧ mget New.subchans k = []) ∧
    (∀ k, mhas New.handlers k = false ∧ mget New.handlers k = []) ∧
    (∀ (b : Bus) (now : Nat) (typ : String) (fns : List HandlerId),
      (b.AddHandlers now typ fns).1.subchans.isSome = b.subchans.isSome ∧
      (b.AddHandlers now typ fns).1.handlers.isSome = b.handlers.isSome ∧
      (b.AddHandlers now typ fns).1.flags.isSome = b.flags.isSome) ∧
    (∀ (b : Bus) (typ : String) (c : QueueId),
      (b.AddChannel typ c).subchans.isSome = b.subchans.isSome ∧
      (b.AddChannel typ c).handlers.isSome = b.handlers.isSome ∧
      (b.AddChannel typ c).flags.isSome = b.flags.isSome) ∧
    (∀ (b : Bus) (p : Payload),
      (b.Post p).1.subchans.isSome = b.subchans.isSome ∧
      (b.Post p).1.handlers.isSome = b.handlers.isSome ∧
      (b.Post p).1.flags.isSome = b.flags.isSome ∧
      (b.PostAndWait p).1.subchans.isSome = b.subchans.isSome ∧
      (b.PostAndWait p).1.handlers.isSome = b.handlers.isSome ∧
      (b.PostAndWait p).1.flags.isSome = b.flags.isSome) := by
  refine ⟨rfl, rfl, fun k => ⟨rfl, rfl⟩, fun k => ⟨rfl, rfl⟩, ?_, ?_, ?_⟩
  · intro b now typ fns
    unfold Bus.AddHandlers
    split
    · exact ⟨rfl, mset_isSome b.handlers typ _, rfl⟩
    · exact ⟨rfl, rfl, rfl⟩
  · intro b typ c
    unfold Bus.AddChannel
    split
    · exact ⟨mset_isSome b.subchans typ _, rfl, rfl⟩
    · exact ⟨mset_isSome b.subchans typ _, rfl, rfl⟩
  · intro b p
    exact ⟨rfl, rfl, rfl, rfl, rfl, rfl⟩

/-- Witness for C9 at a concrete bus: adding queue `5` for `"t"` on a fresh
bus appends to the (empty) sequence for `"t"` and leaves key `"b"` alone. -/
theorem addChannel_eq_unconditional_append_witness :
    New.subchans.isSome = true ∧
    mget (New.AddChannel "t" 5).subchans "t" = mget New.subchans "t" ++ [5] ∧
    ("b" : String) ≠ "t" ∧
    mget (New.AddChannel "t" 5).subchans "b" = mget New.subchans "b" :=
  ⟨rfl, (addChannel_eq_unconditional_append New "t" 5).2.1 rfl,
   by decide, (addChannel_eq_unconditional_append New "t" 5).2.2 "b" (by decide)⟩
